import Mathlib

/-!
Verification of the DHL shipment reconciliation service
(automated_tracker.py) against its natural-language specification.

The embedding below translates the relevant Python functions into
executable Lean definitions:

- DHLTracker.get_shipment_status  becomes  get_shipment_status,
  over a TrackingData type modelling the JSON shapes the code inspects;
- AutomatedTracker.hourly_detailed_check  becomes  hourly_detailed_check,
  with the external Ledger and Carrier abstracted as inputs and all
  externally visible effects (carrier calls, Ledger writes, webhook
  notifications) recorded in an event trace;
- AutomatedTracker.simple_check  becomes  simple_check, over the
  lightweight count state last_check_results;
- the mutable set AutomatedTracker.last_delivered_shipments becomes a
  duplicate-free list of identifiers with the guarded insert markDelivered;
- the scheduler loop of start_scheduler and the top-level main wrapper
  become start_scheduler_ticks and main_model over a finite list of tick
  outcomes.

Wall-clock fields (timestamps, sleep delays) carry no reconciliation
logic and are omitted from the model.
-/

/-- Python-style substring test on character lists: the second list is a
prefix of the first. -/
def isPrefOf : List Char → List Char → Bool
  | [], _ => true
  | _ :: _, [] => false
  | p :: ps, c :: cs => p == c && isPrefOf ps cs

/-- Python-style substring containment, as in the expression
"delivered" in description.lower() of the source. -/
def listContainsSub (pat : List Char) : List Char → Bool
  | [] => pat.isEmpty
  | c :: cs => isPrefOf pat (c :: cs) || listContainsSub pat cs

/-- String form of the substring test used by the delivered heuristic. -/
def strContainsSub (pat s : String) : Bool :=
  listContainsSub pat.data s.data

/-- Python str.lower, applied character by character over the underlying
list of the string. -/
def strToLower (s : String) : String :=
  ⟨s.data.map Char.toLower⟩

/-- The status object of the first shipment record in a DHL response:
the four fields get_shipment_status reads, each possibly absent. -/
structure StatusInfo where
  description : Option String
  status : Option String
  statusCode : Option String
  nextSteps : Option String
deriving DecidableEq

/-- Result of DHLTracker.track_shipment as inspected by
get_shipment_status: either a transport failure carrying the HTTP status
code when one was observed, or a parsed response with a list of shipment
records, each record having a status object or not. -/
inductive TrackingData where
  /-- The error-dict branch of track_shipment; the code is absent when the
  request raised before an HTTP status was available. -/
  | transportError (statusCode : Option Nat)
  /-- A 200 response whose shipments list holds, per record, the optional
  status object. -/
  | success (shipments : List (Option StatusInfo))
deriving DecidableEq

/-- Rendering of the optional failure code inside the generic error
string, as the Python f-string renders status_code. -/
def codeText : Option Nat → String
  | some c => toString c
  | none => "None"

/-- Translation of DHLTracker.get_shipment_status: returns the triple
(status_description, next_steps, is_delivered). The failure branch
mirrors the if and elif chain of the source. -/
def get_shipment_status (td : TrackingData) : String × Option String × Bool :=
  match td with
  | .transportError status_code =>
    if status_code = some 404 then ("Not Found", none, false)
    else if status_code = some 401 then ("Auth Error", none, false)
    else if status_code = some 429 then ("Rate Limited", none, false)
    else ("Error " ++ codeText status_code, none, false)
  | .success shipments =>
    match shipments with
    | some si :: _ =>
      let description := si.description.getD (si.status.getD "Unknown")
      let status_code := strToLower (si.statusCode.getD "")
      let is_delivered :=
        strContainsSub "delivered" (strToLower description) ||
          (status_code == "delivered" || status_code == "ok")
      let next_steps := if is_delivered then none else si.nextSteps
      (description, next_steps, is_delivered)
    | _ => ("No data", none, false)

/-- CLAIM C3: for every successful carrier lookup whose first shipment
record has a status object, resolve returns delivered true exactly when
the lowercased description contains the substring delivered or the
lowercased status code is delivered or ok; and when delivered is true the
recommended next action is absent. -/
theorem C3_delivered_detection (si : StatusInfo) (rest : List (Option StatusInfo)) :
    ((get_shipment_status (.success (some si :: rest))).2.2 = true ↔
      (strContainsSub "delivered"
          (strToLower (si.description.getD (si.status.getD "Unknown"))) = true ∨
        strToLower (si.statusCode.getD "") = "delivered" ∨
        strToLower (si.statusCode.getD "") = "ok")) ∧
    ((get_shipment_status (.success (some si :: rest))).2.2 = true →
      (get_shipment_status (.success (some si :: rest))).2.1 = none) := by
  constructor
  · simp only [get_shipment_status, Bool.or_eq_true, beq_iff_eq]
  · intro h
    simp only [get_shipment_status] at h ⊢
    simp [h]

/-- Witness for C3 at a concrete delivered response. -/
theorem C3_delivered_detection_witness :
    (get_shipment_status
        (.success [some ⟨some "Delivered", none, some "transit", some "x"⟩])).2.2 = true ∧
    (get_shipment_status
        (.success [some ⟨some "Delivered", none, some "transit", some "x"⟩])).2.1 = none :=
  ⟨by decide,
    (C3_delivered_detection ⟨some "Delivered", none, some "transit", some "x"⟩ []).2
      (by decide)⟩

/-- CLAIM C4: every transport failure maps to a fixed description with
delivered false and no next action; the function is total, so it never
raises. -/
theorem C4_transport_failure (c : Nat) :
    get_shipment_status (.transportError (some c)) =
      (if c = 404 then "Not Found"
       else if c = 401 then "Auth Error"
       else if c = 429 then "Rate Limited"
       else "Error " ++ toString c, none, false) := by
  simp only [get_shipment_status, codeText, Option.some.injEq]
  split_ifs <;> rfl

/-- A candidate shipment row as returned by
OdooClient.get_recent_shipments: the four fields the detailed cycle
reads. -/
structure Shipment where
  tracking_number : String
  partner_id : Nat
  partner_name : String
  shipment_ref : String
deriving DecidableEq

/-- The shipment_data dictionary built per shipment inside
hourly_detailed_check (the wall-clock timestamp field is omitted). -/
structure ShipmentData where
  tracking_number : String
  partner_name : String
  partner_id : Nat
  shipment_ref : String
  status : String
  next_steps : Option String
  is_delivered : Bool
deriving DecidableEq

/-- Summary counters of the webhook payload built by
hourly_detailed_check. -/
structure Summary where
  total_shipments : Nat
  in_transit : Nat
  newly_delivered : Nat
deriving DecidableEq

/-- The output of one detailed cycle: the webhook payload lists plus the
attention list handed to send_detailed_next_steps_report. -/
structure ReconciliationResult where
  summary : Summary
  in_transit_shipments : List ShipmentData
  newly_delivered_shipments : List ShipmentData
  shipments_with_next_steps : List ShipmentData
deriving DecidableEq

/-- Externally visible effects of a detailed cycle, in program order. -/
inductive Event where
  /-- A call of DHLTracker.get_shipment_status for this identifier. -/
  | carrierCall (id : String)
  /-- The Ledger write update_delivery_status with delivered true. -/
  | writeDelivered (id : String)
  /-- The Ledger write update_delivery_status with delivered false,
  carrying the current status and the optional next steps. -/
  | writeInTransitStatus (id : String) (status : String) (next_steps : Option String)
  /-- The summary webhook sent by webhook_sender.send_webhook. -/
  | sendWebhook (summary : Summary)
  /-- The attention report sent by send_detailed_next_steps_report,
  carrying the identifiers it lists. -/
  | sendDetailedReport (ids : List String)
deriving DecidableEq

/-- Insertion into last_delivered_shipments, a Python set: adding an
element already present changes nothing. The set is modelled as a list
without duplicates. -/
def markDelivered (s : List String) (id : String) : List String :=
  if id ∈ s then s else id :: s

/-- Accumulated state of the per-shipment loop of hourly_detailed_check. -/
structure LoopOut where
  delivered : List String
  in_transit_shipments : List ShipmentData
  newly_delivered_shipments : List ShipmentData
  shipments_with_next_steps : List ShipmentData
  trace : List Event
deriving DecidableEq

/-- The per-shipment loop of hourly_detailed_check (source lines 520 to
567): skip identifiers already in the delivered set; otherwise resolve
the carrier status, write the transition to the Ledger, and classify the
shipment into the reporting buckets. -/
def processShipments (carrier : String → TrackingData) (delivered : List String) :
    List Shipment → LoopOut
  | [] => ⟨delivered, [], [], [], []⟩
  | s :: rest =>
    if s.tracking_number ∈ delivered then
      processShipments carrier delivered rest
    else
      let g := get_shipment_status (carrier s.tracking_number)
      let sd : ShipmentData :=
        ⟨s.tracking_number, s.partner_name, s.partner_id, s.shipment_ref,
          g.1, g.2.1, g.2.2⟩
      if g.2.2 then
        let out := processShipments carrier (markDelivered delivered s.tracking_number) rest
        ⟨out.delivered, out.in_transit_shipments,
          sd :: out.newly_delivered_shipments, out.shipments_with_next_steps,
          .carrierCall s.tracking_number :: .writeDelivered s.tracking_number :: out.trace⟩
      else
        let out := processShipments carrier delivered rest
        ⟨out.delivered, sd :: out.in_transit_shipments,
          out.newly_delivered_shipments,
          (if g.2.1.isSome then sd :: out.shipments_with_next_steps
           else out.shipments_with_next_steps),
          .carrierCall s.tracking_number ::
            .writeInTransitStatus s.tracking_number g.1 g.2.1 :: out.trace⟩

/-- What one run of hourly_detailed_check leaves behind: the delivered
set, the effect trace, and the reconciliation result when one was built. -/
structure CycleOutput where
  delivered : List String
  trace : List Event
  result : Option ReconciliationResult
deriving DecidableEq

/-- Translation of AutomatedTracker.hourly_detailed_check. The Ledger
connection outcome, the candidate list it would return, and the carrier
responses are inputs; the delivered set is threaded explicitly. -/
def hourly_detailed_check (connectOk : Bool) (candidates : List Shipment)
    (carrier : String → TrackingData) (delivered : List String) : CycleOutput :=
  if !connectOk then ⟨delivered, [], none⟩
  else if candidates.isEmpty then ⟨delivered, [], none⟩
  else
    let out := processShipments carrier delivered candidates
    let result : ReconciliationResult :=
      ⟨⟨candidates.length, out.in_transit_shipments.length,
          out.newly_delivered_shipments.length⟩,
        out.in_transit_shipments, out.newly_delivered_shipments,
        out.shipments_with_next_steps⟩
    ⟨out.delivered,
      out.trace ++
        Event.sendWebhook result.summary ::
          (if out.shipments_with_next_steps.isEmpty then []
           else [Event.sendDetailedReport
              (out.shipments_with_next_steps.map (fun sd => sd.tracking_number))]),
      some result⟩

/-- Identifiers appearing in any output bucket of a cycle result. -/
def bucketIds : Option ReconciliationResult → List String
  | none => []
  | some r =>
    r.in_transit_shipments.map (fun sd => sd.tracking_number) ++
      r.newly_delivered_shipments.map (fun sd => sd.tracking_number) ++
      r.shipments_with_next_steps.map (fun sd => sd.tracking_number)

/-- CLAIM C8: inserting an identifier into the delivered set twice leaves
the set exactly as after inserting it once. -/
theorem C8_markDelivered_idempotent (s : List String) (id : String) :
    markDelivered (markDelivered s id) id = markDelivered s id := by
  by_cases h : id ∈ s <;> simp [markDelivered, h]

/-- CLAIM C6: when the Ledger connection fails at cycle start, the
detailed cycle returns at once: the delivered set is unchanged, the
effect trace is empty (so no carrier call and no notification of any
kind), no result is produced, and the translated function returns
normally rather than raising. -/
theorem C6_ledger_unreachable (candidates : List Shipment)
    (carrier : String → TrackingData) (delivered : List String) :
    hourly_detailed_check false candidates carrier delivered =
      ⟨delivered, [], none⟩ := rfl

/-- CLAIM C10: when the Ledger is reachable but returns no candidates,
the detailed cycle returns early: delivered set unchanged, empty trace
(no carrier call, no Ledger write, no notification), no result. -/
theorem C10_empty_candidates (carrier : String → TrackingData)
    (delivered : List String) :
    hourly_detailed_check true [] carrier delivered = ⟨delivered, [], none⟩ := rfl

/-- CLAIM C1: a detailed cycle over candidates A, B, C where A is already
delivered, the carrier resolves B as delivered, and the carrier resolves
C as in transit with next action Await customs clearance, yields
newly-delivered exactly B, in-transit exactly C with its next action,
summary counts 3, 1, 1, Ledger writes writeDelivered for B and
writeInTransitStatus for C with that next action, and an attention list
of exactly C. -/
theorem C1_three_candidate_scenario
    (a b c : String) (pa pb pc : Nat) (na nb nc ra rb rc : String)
    (carrier : String → TrackingData) (d : List String)
    (descB descC : String) (nsB : Option String)
    (ha : a ∈ d) (hb : b ∉ d) (hc : c ∉ d) (hcb : c ≠ b)
    (hB : get_shipment_status (carrier b) = (descB, nsB, true))
    (hC : get_shipment_status (carrier c) =
      (descC, some "Await customs clearance", false)) :
    (hourly_detailed_check true
        [⟨a, pa, na, ra⟩, ⟨b, pb, nb, rb⟩, ⟨c, pc, nc, rc⟩] carrier d).result =
      some ⟨⟨3, 1, 1⟩,
        [⟨c, nc, pc, rc, descC, some "Await customs clearance", false⟩],
        [⟨b, nb, pb, rb, descB, nsB, true⟩],
        [⟨c, nc, pc, rc, descC, some "Await customs clearance", false⟩]⟩ ∧
    Event.writeDelivered b ∈
      (hourly_detailed_check true
        [⟨a, pa, na, ra⟩, ⟨b, pb, nb, rb⟩, ⟨c, pc, nc, rc⟩] carrier d).trace ∧
    Event.writeInTransitStatus c descC (some "Await customs clearance") ∈
      (hourly_detailed_check true
        [⟨a, pa, na, ra⟩, ⟨b, pb, nb, rb⟩, ⟨c, pc, nc, rc⟩] carrier d).trace := by
  simp [hourly_detailed_check, processShipments, markDelivered,
    ha, hb, hc, hcb, hB, hC]

/-- Concrete carrier used by the scenario witnesses: identifier B gets a
delivered response, every other identifier a customs-hold response. -/
def scenarioCarrier (id : String) : TrackingData :=
  if id = "B" then .success [some ⟨some "Delivered", none, none, none⟩]
  else .success
    [some ⟨some "Customs clearance event", none, none,
      some "Await customs clearance"⟩]

/-- Witness for C1 at concrete candidates A, B, C. -/
theorem C1_three_candidate_scenario_witness :
    (hourly_detailed_check true
        [⟨"A", 1, "PA", "R1"⟩, ⟨"B", 2, "PB", "R2"⟩, ⟨"C", 3, "PC", "R3"⟩]
        scenarioCarrier ["A"]).result =
      some ⟨⟨3, 1, 1⟩,
        [⟨"C", "PC", 3, "R3", "Customs clearance event",
            some "Await customs clearance", false⟩],
        [⟨"B", "PB", 2, "R2", "Delivered", none, true⟩],
        [⟨"C", "PC", 3, "R3", "Customs clearance event",
            some "Await customs clearance", false⟩]⟩ ∧
    Event.writeDelivered "B" ∈
      (hourly_detailed_check true
        [⟨"A", 1, "PA", "R1"⟩, ⟨"B", 2, "PB", "R2"⟩, ⟨"C", 3, "PC", "R3"⟩]
        scenarioCarrier ["A"]).trace ∧
    Event.writeInTransitStatus "C" "Customs clearance event"
        (some "Await customs clearance") ∈
      (hourly_detailed_check true
        [⟨"A", 1, "PA", "R1"⟩, ⟨"B", 2, "PB", "R2"⟩, ⟨"C", 3, "PC", "R3"⟩]
        scenarioCarrier ["A"]).trace :=
  C1_three_candidate_scenario "A" "B" "C" 1 2 3 "PA" "PB" "PC" "R1" "R2" "R3"
    scenarioCarrier ["A"] "Delivered" "Customs clearance event" none
    (by decide) (by decide) (by decide) (by decide) (by decide) (by decide)

/-- Inserting one identifier never removes another: membership of the
delivered set is preserved by markDelivered. -/
theorem mem_markDelivered (d : List String) (id a : String) (h : a ∈ d) :
    a ∈ markDelivered d id := by
  unfold markDelivered
  split <;> simp [h]

/-- The per-shipment loop only grows the delivered set: an identifier in
the set at loop start is still in it at loop end. -/
theorem processShipments_delivered_mono (carrier : String → TrackingData)
    (cands : List Shipment) (d : List String) (a : String) (h : a ∈ d) :
    a ∈ (processShipments carrier d cands).delivered := by
  induction cands generalizing d with
  | nil => simpa [processShipments] using h
  | cons s rest ih =>
    by_cases hmem : s.tracking_number ∈ d
    · simpa [processShipments, hmem] using ih d h
    · by_cases hdel : (get_shipment_status (carrier s.tracking_number)).2.2 = true
      · simpa [processShipments, hmem, hdel] using
          ih (markDelivered d s.tracking_number) (mem_markDelivered d s.tracking_number a h)
      · simpa [processShipments, hmem, hdel] using ih d h

/-- An identifier already in the delivered set at loop start is fully
skipped: no carrier call appears for it in the trace and it occurs in
none of the three output buckets. -/
theorem processShipments_skips (carrier : String → TrackingData)
    (cands : List Shipment) (d : List String) (id : String) (h : id ∈ d) :
    Event.carrierCall id ∉ (processShipments carrier d cands).trace ∧
    (∀ sd ∈ (processShipments carrier d cands).in_transit_shipments,
      sd.tracking_number ≠ id) ∧
    (∀ sd ∈ (processShipments carrier d cands).newly_delivered_shipments,
      sd.tracking_number ≠ id) ∧
    (∀ sd ∈ (processShipments carrier d cands).shipments_with_next_steps,
      sd.tracking_number ≠ id) := by
  induction cands generalizing d with
  | nil => simp [processShipments]
  | cons s rest ih =>
    by_cases hmem : s.tracking_number ∈ d
    · simpa [processShipments, hmem] using ih d h
    · have hne : s.tracking_number ≠ id := fun he => hmem (he ▸ h)
      have hne2 : ¬id = s.tracking_number := fun he => hne he.symm
      by_cases hdel : (get_shipment_status (carrier s.tracking_number)).2.2 = true
      · obtain ⟨ih1, ih2, ih3, ih4⟩ :=
          ih (markDelivered d s.tracking_number) (mem_markDelivered d s.tracking_number id h)
        refine ⟨?_, ?_, ?_, ?_⟩ <;>
          simp_all [processShipments, hmem, hdel, hne, hne2]
      · obtain ⟨ih1, ih2, ih3, ih4⟩ := ih d h
        constructor
        · simp_all [processShipments, hmem, hdel, hne, hne2]
        constructor
        · simp_all [processShipments, hmem, hdel, hne, hne2]
        constructor
        · simp_all [processShipments, hmem, hdel, hne, hne2]
        · intro sd hsd
          simp only [processShipments, if_neg hmem, hdel] at hsd
          simp only [Bool.false_eq_true, if_false] at hsd
          by_cases hns :
              (get_shipment_status (carrier s.tracking_number)).2.1.isSome = true
          · simp only [hns, if_true, List.mem_cons] at hsd
            rcases hsd with rfl | hsd
            · exact hne
            · exact ih4 sd hsd
          · simp only [hns, Bool.false_eq_true, if_false] at hsd
            exact ih4 sd hsd

/-- Every shipment classified newly delivered by the loop has its
identifier in the delivered set the loop returns. -/
theorem processShipments_newly_mem_delivered (carrier : String → TrackingData)
    (cands : List Shipment) (d : List String) :
    ∀ sd ∈ (processShipments carrier d cands).newly_delivered_shipments,
      sd.tracking_number ∈ (processShipments carrier d cands).delivered := by
  induction cands generalizing d with
  | nil => simp [processShipments]
  | cons s rest ih =>
    intro sd hsd
    by_cases hmem : s.tracking_number ∈ d
    · simp only [processShipments, if_pos hmem] at hsd ⊢
      exact ih d sd hsd
    · by_cases hdel : (get_shipment_status (carrier s.tracking_number)).2.2 = true
      · simp only [processShipments, if_neg hmem, hdel, if_true, List.mem_cons] at hsd ⊢
        rcases hsd with rfl | hsd
        · exact processShipments_delivered_mono carrier rest
            (markDelivered d s.tracking_number) s.tracking_number
            (by simp [markDelivered, hmem])
        · exact ih (markDelivered d s.tracking_number) sd hsd
      · simp only [processShipments, if_neg hmem, hdel, Bool.false_eq_true, if_false] at hsd ⊢
        exact ih d sd hsd

/-- Lifting of the skip property to a whole detailed cycle: an identifier
in the delivered set at cycle start stays in the set, gets no carrier
call, and appears in no output bucket. -/
theorem hourly_skips_delivered (conn : Bool) (cands : List Shipment)
    (carrier : String → TrackingData) (d : List String) (id : String) (h : id ∈ d) :
    id ∈ (hourly_detailed_check conn cands carrier d).delivered ∧
    Event.carrierCall id ∉ (hourly_detailed_check conn cands carrier d).trace ∧
    id ∉ bucketIds (hourly_detailed_check conn cands carrier d).result := by
  unfold hourly_detailed_check
  by_cases hconn : conn
  · by_cases hempty : cands.isEmpty
    · simp [hconn, hempty, bucketIds, h]
    · obtain ⟨h2, h3, h4, h5⟩ := processShipments_skips carrier cands d id h
      have h1 := processShipments_delivered_mono carrier cands d id h
      simp only [hconn, Bool.not_true, Bool.false_eq_true, if_false, hempty, if_neg]
      refine ⟨h1, ?_, ?_⟩
      · intro hmem
        simp only [List.mem_append, List.mem_cons] at hmem
        rcases hmem with hmem | hmem | hmem
        · exact h2 hmem
        · exact Event.noConfusion hmem
        · by_cases hns :
              (processShipments carrier d cands).shipments_with_next_steps.isEmpty
          · simp [hns] at hmem
          · simp only [hns, Bool.false_eq_true, if_false, List.mem_singleton] at hmem
            exact Event.noConfusion hmem
      · intro hmem
        simp only [bucketIds, List.mem_append, List.mem_map] at hmem
        rcases hmem with (⟨sd, hsd, he⟩ | ⟨sd, hsd, he⟩) | ⟨sd, hsd, he⟩
        · exact h3 sd hsd he
        · exact h4 sd hsd he
        · exact h5 sd hsd he
  · simp [hconn, bucketIds, h]

/-- CLAIM C2: an identifier in the delivered set at the start of a
detailed cycle receives no carrier call during the cycle and appears in
no output bucket; and any shipment the cycle reports newly delivered is
in the delivered set the cycle returns, so a following cycle run on that
set skips it entirely as well. -/
theorem C2_delivered_skipped_forever (conn conn2 : Bool)
    (cands cands2 : List Shipment) (carrier carrier2 : String → TrackingData)
    (d : List String) (id : String) (sd : ShipmentData) :
    (id ∈ d →
      Event.carrierCall id ∉ (hourly_detailed_check conn cands carrier d).trace ∧
      id ∉ bucketIds (hourly_detailed_check conn cands carrier d).result) ∧
    (∀ r, (hourly_detailed_check conn cands carrier d).result = some r →
      sd ∈ r.newly_delivered_shipments →
      Event.carrierCall sd.tracking_number ∉
        (hourly_detailed_check conn2 cands2 carrier2
          (hourly_detailed_check conn cands carrier d).delivered).trace ∧
      sd.tracking_number ∉
        bucketIds (hourly_detailed_check conn2 cands2 carrier2
          (hourly_detailed_check conn cands carrier d).delivered).result) := by
  constructor
  · intro h
    exact ⟨(hourly_skips_delivered conn cands carrier d id h).2.1,
      (hourly_skips_delivered conn cands carrier d id h).2.2⟩
  · intro r hr hsd
    have hmem : sd.tracking_number ∈
        (hourly_detailed_check conn cands carrier d).delivered := by
      unfold hourly_detailed_check at hr ⊢
      by_cases hconn : conn
      · by_cases hempty : cands.isEmpty
        · simp [hconn, hempty] at hr
        · simp only [hconn, Bool.not_true, Bool.false_eq_true, if_false,
            hempty, if_neg, Option.some.injEq] at hr ⊢
          subst hr
          exact processShipments_newly_mem_delivered carrier cands d sd hsd
      · simp [hconn] at hr
    exact ⟨(hourly_skips_delivered conn2 cands2 carrier2 _ sd.tracking_number hmem).2.1,
      (hourly_skips_delivered conn2 cands2 carrier2 _ sd.tracking_number hmem).2.2⟩

/-- Witness for C2: identifier A already delivered is skipped by a cycle,
and B, newly delivered by that cycle, is skipped by the next one. -/
theorem C2_delivered_skipped_forever_witness :
    (Event.carrierCall "A" ∉
        (hourly_detailed_check true [⟨"B", 2, "PB", "R2"⟩] scenarioCarrier ["A"]).trace ∧
      "A" ∉ bucketIds
        (hourly_detailed_check true [⟨"B", 2, "PB", "R2"⟩] scenarioCarrier ["A"]).result) ∧
    (Event.carrierCall "B" ∉
        (hourly_detailed_check true [⟨"B", 2, "PB", "R2"⟩] scenarioCarrier
          (hourly_detailed_check true [⟨"B", 2, "PB", "R2"⟩] scenarioCarrier
            ["A"]).delivered).trace ∧
      "B" ∉ bucketIds
        (hourly_detailed_check true [⟨"B", 2, "PB", "R2"⟩] scenarioCarrier
          (hourly_detailed_check true [⟨"B", 2, "PB", "R2"⟩] scenarioCarrier
            ["A"]).delivered).result) :=
  ⟨(C2_delivered_skipped_forever true true [⟨"B", 2, "PB", "R2"⟩] [⟨"B", 2, "PB", "R2"⟩]
      scenarioCarrier scenarioCarrier ["A"] "A"
      ⟨"B", "PB", 2, "R2", "Delivered", none, true⟩).1 (by decide),
    (C2_delivered_skipped_forever true true [⟨"B", 2, "PB", "R2"⟩] [⟨"B", 2, "PB", "R2"⟩]
      scenarioCarrier scenarioCarrier ["A"] "A"
      ⟨"B", "PB", 2, "R2", "Delivered", none, true⟩).2
      ⟨⟨1, 0, 1⟩, [], [⟨"B", "PB", 2, "R2", "Delivered", none, true⟩], []⟩
      (by decide) (by decide)⟩

/-- Translation of AutomatedTracker.simple_check over the stored count
last_check_results, holding the shipment_count key when set. Returns the
stored count after the cycle and whether the minimal notification was
sent. The count is read with default 0, compared, and always written
back when the Ledger was reachable. -/
def simple_check (connectOk : Bool) (shipments : List Shipment)
    (last_check : Option Nat) : Option Nat × Bool :=
  if !connectOk then (last_check, false)
  else
    let current_count := shipments.length
    let last_count := last_check.getD 0
    if current_count ≠ last_count then (some current_count, true)
    else (some current_count, false)

/-- The two mutable fields of AutomatedTracker read and written by the
cycles: the delivered set and the lightweight count. -/
structure TrackerState where
  last_delivered_shipments : List String
  last_check_count : Option Nat
deriving DecidableEq

/-- The lightweight cycle acting on the full tracker state: it never
touches the delivered set. -/
def simple_check_state (connectOk : Bool) (shipments : List Shipment)
    (st : TrackerState) : TrackerState × Bool :=
  let r := simple_check connectOk shipments st.last_check_count
  (⟨st.last_delivered_shipments, r.1⟩, r.2)

/-- The detailed cycle acting on the full tracker state: it never touches
the lightweight count, exactly as hourly_detailed_check in the source
never reads or writes last_check_results. -/
def hourly_detailed_check_state (connectOk : Bool) (cands : List Shipment)
    (carrier : String → TrackingData) (st : TrackerState) :
    TrackerState × List Event × Option ReconciliationResult :=
  let o := hourly_detailed_check connectOk cands carrier st.last_delivered_shipments
  (⟨o.delivered, st.last_check_count⟩, o.trace, o.result)

/-- CLAIM C5: a lightweight cycle that reaches the Ledger notifies
exactly when the current count differs from the previous lightweight
reading, always stores the new count, and the detailed cycle never
changes the stored lightweight count, so the comparison baseline is
never the detailed cycle's count. -/
theorem C5_lightweight_change_detection (shipments : List Shipment)
    (st : TrackerState) :
    ((simple_check_state true shipments st).2 = true ↔
      shipments.length ≠ st.last_check_count.getD 0) ∧
    (simple_check_state true shipments st).1.last_check_count =
      some shipments.length ∧
    (simple_check_state true shipments st).1.last_delivered_shipments =
      st.last_delivered_shipments ∧
    (∀ conn cands carrier st2,
      (hourly_detailed_check_state conn cands carrier st2).1.last_check_count =
        st2.last_check_count) := by
  refine ⟨?_, ?_, rfl, fun conn cands carrier st2 => rfl⟩
  · by_cases h : shipments.length = st.last_check_count.getD 0 <;>
      simp [simple_check_state, simple_check, h]
  · by_cases h : shipments.length = st.last_check_count.getD 0 <;>
      simp [simple_check_state, simple_check, h]

/-- CLAIM C9: on the first lightweight cycle the previous count defaults
to 0, so the notification fires exactly when the first observed count is
nonzero; the count is stored either way. -/
theorem C9_first_lightweight_cycle (shipments : List Shipment) :
    ((simple_check true shipments none).2 = true ↔ shipments.length ≠ 0) ∧
    (simple_check true shipments none).1 = some shipments.length := by
  constructor
  · by_cases h : shipments.length = 0 <;> simp [simple_check, h]
  · by_cases h : shipments.length = 0 <;> simp [simple_check, h]

/-- Outcome of running the jobs due at one tick of the scheduler loop:
they finish normally, one of them raises an exception that
schedule.run_pending propagates, or the external stop signal arrives as
a KeyboardInterrupt. -/
inductive TickOutcome where
  | ok
  | raises (msg : String)
  | interrupt
deriving DecidableEq

/-- How the scheduler loop of start_scheduler (source lines 655 to 657)
ends relative to a finite prefix of tick outcomes: still alive after
running them all, ended by the stop signal, or ended by an exception
that escaped a cycle, since the loop body contains no handler. -/
inductive LoopExit where
  | stillRunning (ticksRun : Nat)
  | stopSignal
  | escaped (msg : String)
deriving DecidableEq

/-- Translation of the scheduler loop: while True, run the pending jobs
and sleep. There is no try block inside the loop, so the first tick whose
cycle raises terminates the loop and later ticks never run. -/
def start_scheduler_ticks : List TickOutcome → LoopExit
  | [] => .stillRunning 0
  | .ok :: rest =>
    match start_scheduler_ticks rest with
    | .stillRunning n => .stillRunning (n + 1)
    | e => e
  | .raises msg :: _ => .escaped msg
  | .interrupt :: _ => .stopSignal

/-- What the process reports after the loop ends. -/
inductive MainOutcome where
  | running (ticksRun : Nat)
  | stoppedByUser
  | errorLogged (msg : String)
deriving DecidableEq

/-- Translation of main (source lines 670 to 677): the only exception
handlers sit around the whole of start_scheduler; after logging, main
returns and the process ends. -/
def main_model (ticks : List TickOutcome) : MainOutcome :=
  match start_scheduler_ticks ticks with
  | .stillRunning n => .running n
  | .stopSignal => .stoppedByUser
  | .escaped msg => .errorLogged msg

/-- Counterexample to CLAIM C7: one cycle raising at the first tick
terminates the scheduler loop even though no stop signal ever arrives;
the following tick never runs, and the error is caught only by the
top-level handler in main, after which the process ends. -/
theorem C7_counterexample :
    start_scheduler_ticks [.raises "AttributeError", .ok] =
      .escaped "AttributeError" ∧
    main_model [.raises "AttributeError", .ok] =
      .errorLogged "AttributeError" ∧
    start_scheduler_ticks [.ok, .ok] = .stillRunning 2 := by
  refine ⟨rfl, rfl, rfl⟩

/-- CLAIM C7 as amended: an error escaping a cycle is not caught at the
cycle boundary; it propagates out of the scheduler loop at that tick,
the loop terminates and later ticks never run, and the error is caught
and logged only by the top-level handler in main. The loop survives
every tick whose cycles do not raise, and the stop signal likewise ends
it. -/
theorem C7_loop_error_propagation (pre post : List TickOutcome) (msg : String)
    (hpre : ∀ t ∈ pre, t = TickOutcome.ok) :
    start_scheduler_ticks (pre ++ TickOutcome.raises msg :: post) = .escaped msg ∧
    main_model (pre ++ TickOutcome.raises msg :: post) = .errorLogged msg ∧
    start_scheduler_ticks pre = .stillRunning pre.length ∧
    start_scheduler_ticks (pre ++ [TickOutcome.interrupt]) = .stopSignal ∧
    main_model (pre ++ [TickOutcome.interrupt]) = .stoppedByUser := by
  induction pre with
  | nil => exact ⟨rfl, rfl, rfl, rfl, rfl⟩
  | cons t rest ih =>
    have ht : t = TickOutcome.ok := hpre t (by simp)
    subst ht
    obtain ⟨ih1, ih2, ih3, ih4, ih5⟩ := ih (fun t htm => hpre t (by simp [htm]))
    refine ⟨?_, ?_, ?_, ?_, ?_⟩ <;>
      simp_all [start_scheduler_ticks, main_model, List.cons_append]

/-- Witness for the amended C7 with one clean tick before the failure. -/
theorem C7_loop_error_propagation_witness :
    start_scheduler_ticks [TickOutcome.ok, TickOutcome.raises "boom"] =
      .escaped "boom" ∧
    main_model [TickOutcome.ok, TickOutcome.raises "boom"] =
      .errorLogged "boom" ∧
    start_scheduler_ticks [TickOutcome.ok] = .stillRunning 1 ∧
    start_scheduler_ticks [TickOutcome.ok, TickOutcome.interrupt] = .stopSignal ∧
    main_model [TickOutcome.ok, TickOutcome.interrupt] = .stoppedByUser :=
  C7_loop_error_propagation [TickOutcome.ok] [] "boom" (by decide)
